import Mathlib

/-
Shallow embedding of the payment-submission gateway in `src/main.go`
(rinha-de-backend-2025).

The program routes each client payment to one of two downstream payment
processors ("default" / "fallback"), guided by a per-processor cached
health snapshot, delivers with bounded retries, and records aggregate
counters for successful deliveries in a Redis-backed store (or degrades
to a no-op store when Redis is unreachable).

Modelling conventions:
  - Outbound HTTP effects are oracle inputs: a health probe outcome is a
    `ProbeResult` (connection error, or a status code together with the
    body-decoding outcome), a delivery attempt outcome is an
    `AttemptOutcome`, and `processPayment`'s two possible delivery calls
    are given by a per-processor oracle `sendResult : String → Bool`.
  - Wall-clock instants are `Nat` nanoseconds (Go `time.Time` /
    `time.Duration`); `time.Since t` at instant `now` is `now - t`
    (truncated subtraction agrees with Go: a negative duration is never
    `> 5s`, and neither is `0`).
  - Go `float64` amounts are modelled as `Rat`; Go `int` as `Int`.
  - The Redis hash `summary:<processor>` holding the string forms of the
    two counters is modelled numerically: a `Store` maps a key to the
    numeric contents `(totalRequests, totalAmount)` of the hash, `none`
    for an absent key.  `HIncrBy`/`HIncrByFloat` on an absent field start
    from 0, as in Redis; `HGet` of an absent key yields `redis.Nil` and
    the empty string, which the Go read path turns into 0 values, and a
    present field's decimal string round-trips through
    `strconv.Atoi`/`strconv.ParseFloat`.
  - Log output is a `List LogEvent` so that logging frequency is visible.
-/

namespace Rinha

/-- Go struct `HealthCheckResponse`: the decoded health-probe body. -/
structure HealthCheckResponse where
  failing : Bool
  minResponseTime : Int
deriving DecidableEq, Repr

/-- Go struct `HealthCheckCache`: one cached health snapshot. -/
structure HealthCheckCache where
  failing : Bool
  minResponseTime : Int
  lastCheckedAt : Nat
deriving DecidableEq, Repr

/-- The global `healthCache` map (`map[string]*HealthCheckCache`). -/
def HealthCache : Type := String → Option HealthCheckCache

/-- Write one entry of the health cache (`healthCache[processor] = ...`). -/
def cacheSet (cache : HealthCache) (k : String) (v : HealthCheckCache) : HealthCache :=
  fun q => if q = k then some v else cache q

/-- Go `5 * time.Second` in nanoseconds, the staleness window. -/
def stalenessWindow : Nat := 5000000000

/-- Go `initHealthCache`: optimistic defaults with zero `LastCheckedAt`. -/
def initHealthCache : HealthCache :=
  cacheSet (cacheSet (fun _ => none) "default" ⟨false, 100, 0⟩) "fallback" ⟨false, 200, 0⟩

/-- Outcome of the outbound `httpClient.Get(url)` health probe, as seen by
`updateHealthCheck`: either a transport-level error (`err != nil`), or a
response with its HTTP status code and the result of decoding its body. -/
inductive ProbeResult where
  | connError : ProbeResult
  | response (statusCode : Nat) (body : Option HealthCheckResponse) : ProbeResult
deriving DecidableEq, Repr

/-- Go `updateHealthCheck` (src/main.go lines 216-261): on connection error
write the pessimistic snapshot; on HTTP 429 leave the cache untouched; on a
body that fails to decode leave the cache untouched; otherwise overwrite the
entry with the decoded body and the current time. -/
def updateHealthCheck (cache : HealthCache) (processor : String)
    (probe : ProbeResult) (now : Nat) : HealthCache :=
  match probe with
  | .connError => cacheSet cache processor ⟨true, 1000, now⟩
  | .response statusCode body =>
    if statusCode = 429 then cache
    else
      match body with
      | none => cache
      | some h => cacheSet cache processor ⟨h.failing, h.minResponseTime, now⟩

/-- The refresh condition of `getHealthCheck`:
`cached == nil || time.Since(cached.LastCheckedAt) > 5*time.Second`. -/
def isStale (entry : Option HealthCheckCache) (now : Nat) : Bool :=
  match entry with
  | none => true
  | some c => decide (now - c.lastCheckedAt > stalenessWindow)

/-- Go `getHealthCheck` (src/main.go lines 200-214): read the cache; if the
entry is missing or stale, run `updateHealthCheck` and re-read.  Returns the
new cache, the returned snapshot (`none` models the Go `nil` pointer), and
whether a probe (`updateHealthCheck`) was performed. -/
def getHealthCheck (cache : HealthCache) (processor : String)
    (probe : ProbeResult) (now : Nat) : HealthCache × Option HealthCheckCache × Bool :=
  let cached := cache processor
  if isStale cached now then
    let cache2 := updateHealthCheck cache processor probe now
    (cache2, cache2 processor, true)
  else
    (cache, cached, false)

/-- Go `selectBestProcessor` (src/main.go lines 188-198): fetch the default
processor's health and choose "default" unless it is failing.  The `none`
result models the `nil`-pointer dereference Go would hit if the cache entry
were absent after the refresh (unreachable after `initHealthCache`). -/
def selectBestProcessor (cache : HealthCache) (probe : ProbeResult) (now : Nat) :
    HealthCache × Option String × Bool :=
  let r := getHealthCheck cache "default" probe now
  match r.2.1 with
  | none => (r.1, none, r.2.2)
  | some h => (r.1, some (if h.failing then "fallback" else "default"), r.2.2)

/-- Outcome of one `httpClient.Post` delivery attempt inside
`sendToProcessor`: a transport-level error, or an HTTP status code. -/
inductive AttemptOutcome where
  | transportError : AttemptOutcome
  | httpStatus (code : Nat) : AttemptOutcome
deriving DecidableEq, Repr

/-- Go success condition `resp.StatusCode >= 200 && resp.StatusCode < 300`. -/
def is2xx (code : Nat) : Bool := 200 ≤ code && code < 300

/-- Whether one attempt outcome counts as a successful delivery. -/
def attemptSucceeds (o : AttemptOutcome) : Bool :=
  match o with
  | .transportError => false
  | .httpStatus code => is2xx code

/-- Go `maxRetries := 3` in `sendToProcessor`. -/
def maxRetries : Nat := 3

/-- The retry loop of `sendToProcessor` (src/main.go lines 279-301), with
`fuel = maxRetries - attempt` remaining iterations.  Returns the Go return
value together with the number of HTTP attempts actually made.  A transport
error on the last attempt returns `false` inside the loop; a non-2xx status
on the last attempt falls through the loop to the final `return false`; both
yield the same value.  The backoff sleeps do not affect the result. -/
def sendAux (outcomes : Nat → AttemptOutcome) : Nat → Nat → Bool × Nat
  | _, 0 => (false, 0)
  | attempt, fuel + 1 =>
    match outcomes attempt with
    | .transportError =>
      if fuel = 0 then (false, 1)
      else
        let r := sendAux outcomes (attempt + 1) fuel
        (r.1, r.2 + 1)
    | .httpStatus code =>
      if is2xx code then (true, 1)
      else
        let r := sendAux outcomes (attempt + 1) fuel
        (r.1, r.2 + 1)

/-- Go `sendToProcessor` (src/main.go lines 263-302), given the oracle of
attempt outcomes.  `json.Marshal` of the string/number payload map cannot
fail, so the marshal-error early return is not a reachable path and is not
modelled. -/
def sendToProcessor (outcomes : Nat → AttemptOutcome) : Bool × Nat :=
  sendAux outcomes 0 maxRetries

/-- Go struct `ProcessorSummary`. -/
structure ProcessorSummary where
  totalRequests : Int
  totalAmount : Rat
deriving DecidableEq, Repr

/-- Numeric view of the Redis keyspace used by the counters: each key
(`summary:<processor>`) maps to the numeric contents of its hash, or `none`
when the key is absent. -/
def Store : Type := String → Option (Int × Rat)

/-- A store with no keys. -/
def emptyStore : Store := fun _ => none

/-- Write one key of the store. -/
def storeSet (st : Store) (k : String) (v : Int × Rat) : Store :=
  fun q => if q = k then some v else st q

/-- Go `fmt.Sprintf("summary:%s", processor)`. -/
def summaryKey (processor : String) : String := "summary:" ++ processor

/-- Log lines relevant to the claims, one constructor per `log.Printf`
call site. -/
inductive LogEvent where
  | redisUnavailable : LogEvent
  | memoryFallback (processor : String) (amount : Rat) : LogEvent
  | deliveredLog (correlationId : String) (processor : String) : LogEvent
  | droppedLog (correlationId : String) : LogEvent
deriving DecidableEq, Repr

/-- Go `updateSummaryCounters` (src/main.go lines 304-321): with a store,
pipeline `HIncrBy(key, "totalRequests", 1)` and
`HIncrByFloat(key, "totalAmount", amount)` (absent fields start at 0, both
increments land atomically); with `redisClient == nil`, do nothing to any
counter but emit the per-call in-memory-fallback log line. -/
def updateSummaryCounters (store : Option Store) (processor : String) (amount : Rat) :
    Option Store × List LogEvent :=
  match store with
  | some st =>
    let old := (st (summaryKey processor)).getD (0, 0)
    (some (storeSet st (summaryKey processor) (old.1 + 1, old.2 + amount)), [])
  | none => (none, [.memoryFallback processor amount])

/-- Go `getProcessorSummary` (src/main.go lines 336-378): with a store, the
two `HGet`s of an absent key return `redis.Nil` and empty strings, so both
parsed values keep their 0 defaults; for a present key the counters' decimal
strings parse back to the stored numbers.  With `redisClient == nil`, return
the zero summary. -/
def getProcessorSummary (store : Option Store) (processor : String) : ProcessorSummary :=
  match store with
  | some st =>
    match st (summaryKey processor) with
    | none => ⟨0, 0⟩
    | some v => ⟨v.1, v.2⟩
  | none => ⟨0, 0⟩

/-- The Redis initialisation in `main` (src/main.go lines 84-89): if the
`Ping` fails, log the warning once and set `redisClient = nil` (no store);
otherwise keep the store with whatever it already persists. -/
def startupStore (pingOk : Bool) (persisted : Store) : Option Store × List LogEvent :=
  if pingOk then (some persisted, []) else (none, [.redisUnavailable])

/-- Go struct `PaymentRequest`. -/
structure PaymentRequest where
  correlationId : String
  amount : Rat
deriving DecidableEq, Repr

/-- Observable trace of one `processPayment` run: the processors sent to in
order, the `updateSummaryCounters` invocations `(processor, amount)` in
order, the resulting store, and the log lines. -/
structure ProcessTrace where
  sends : List String
  records : List (String × Rat)
  finalStore : Option Store
  logs : List LogEvent

/-- Go `processPayment` after the processor has been selected
(src/main.go lines 160-186): send to the selected processor; if that failed
and the selected processor was "default", send once to "fallback" and, on
success, account the payment to "fallback"; update the counters only when
some send succeeded. -/
def processPaymentFrom (req : PaymentRequest) (processor : String)
    (sendResult : String → Bool) (store : Option Store) : ProcessTrace :=
  let success := sendResult processor
  if !success && processor == "default" then
    let success2 := sendResult "fallback"
    if success2 then
      let r := updateSummaryCounters store "fallback" req.amount
      ⟨[processor, "fallback"], [("fallback", req.amount)], r.1,
        r.2 ++ [.deliveredLog req.correlationId "fallback"]⟩
    else
      ⟨[processor, "fallback"], [], store, [.droppedLog req.correlationId]⟩
  else if success then
    let r := updateSummaryCounters store processor req.amount
    ⟨[processor], [(processor, req.amount)], r.1,
      r.2 ++ [.deliveredLog req.correlationId processor]⟩
  else
    ⟨[processor], [], store, [.droppedLog req.correlationId]⟩

/-- Go `processPayment` (src/main.go lines 156-186) end to end: select via
`selectBestProcessor`, then run the delivery/accounting pipeline.  `none`
models the `nil`-pointer panic of an absent cache entry. -/
def processPayment (req : PaymentRequest) (cache : HealthCache) (probe : ProbeResult)
    (now : Nat) (sendResult : String → Bool) (store : Option Store) :
    HealthCache × Option ProcessTrace :=
  let s := selectBestProcessor cache probe now
  match s.2.1 with
  | none => (s.1, none)
  | some sel => (s.1, some (processPaymentFrom req sel sendResult store))

/-- The processor, if any, whose delivery succeeds in `processPaymentFrom`:
the selected one if its send succeeds, else "fallback" when the selected one
was "default" and the fallback send succeeds. -/
def deliveredTo (processor : String) (sendResult : String → Bool) : Option String :=
  if sendResult processor then some processor
  else if processor == "default" && sendResult "fallback" then some "fallback"
  else none

/-- Whether a probe outcome causes `updateHealthCheck` to write the cache:
a connection error, or a decodable body with a non-429 status. -/
def probeWrites (probe : ProbeResult) : Bool :=
  match probe with
  | .connError => true
  | .response statusCode body => (statusCode != 429) && body.isSome

/-! Helper lemmas. -/

theorem summaryKey_inj {p q : String} (h : summaryKey p = summaryKey q) : p = q := by
  have hd := congrArg String.data h
  simp [summaryKey] at hd
  exact congrArg String.mk hd

theorem updateSummaryCounters_self (st : Store) (p : String) (a : Rat) :
    getProcessorSummary (updateSummaryCounters (some st) p a).1 p =
      ⟨(getProcessorSummary (some st) p).totalRequests + 1,
       (getProcessorSummary (some st) p).totalAmount + a⟩ := by
  simp only [updateSummaryCounters, getProcessorSummary, storeSet, if_pos rfl]
  cases hk : st (summaryKey p) <;> simp [hk]

theorem updateSummaryCounters_other (st : Store) (p q : String) (a : Rat) (hne : q ≠ p) :
    getProcessorSummary (updateSummaryCounters (some st) p a).1 q =
      getProcessorSummary (some st) q := by
  have hkey : summaryKey q ≠ summaryKey p := fun h => hne (summaryKey_inj h)
  simp only [updateSummaryCounters, getProcessorSummary, storeSet, if_neg hkey]

/-! Claim theorems. -/

/-- C7: a probe whose HTTP response status is 429 leaves the cached health
entry entirely unchanged, and so does a probe whose response body cannot be
decoded (whatever its status code). -/
theorem rate_limit_no_op (cache : HealthCache) (p : String) (now : Nat)
    (body : Option HealthCheckResponse) (code : Nat) :
    updateHealthCheck cache p (ProbeResult.response 429 body) now = cache ∧
    updateHealthCheck cache p (ProbeResult.response code none) now = cache := by
  refine ⟨rfl, ?_⟩
  by_cases hc : code = 429 <;> simp [updateHealthCheck, hc]

/-- C10: for any non-429 status — including 4xx and 5xx error statuses —
a probe whose body decodes overwrites the cached snapshot with the decoded
fields and the current timestamp; the right-hand side does not mention the
status code, so the code is never otherwise consulted. -/
theorem non429_overwrites (cache : HealthCache) (p : String) (now : Nat) (code : Nat)
    (h : HealthCheckResponse) (hc : code ≠ 429) :
    updateHealthCheck cache p (ProbeResult.response code (some h)) now =
      cacheSet cache p ⟨h.failing, h.minResponseTime, now⟩ := by
  simp [updateHealthCheck, hc]

/-- Witness for `non429_overwrites` at a concrete 500 response. -/
theorem non429_overwrites_witness :
    updateHealthCheck initHealthCache "default" (ProbeResult.response 500 (some ⟨true, 7⟩)) 1 =
      cacheSet initHealthCache "default" ⟨true, 7, 1⟩ :=
  non429_overwrites initHealthCache "default" 1 500 ⟨true, 7⟩ (by decide)

/-- C8: reading the summary of a processor with no recorded delivery — an
absent key, or no store at all — returns the zero summary (and the read is a
total function: no error is possible). -/
theorem summary_missing_is_zero (processor : String) (st : Store)
    (hmiss : st (summaryKey processor) = none) :
    getProcessorSummary (some st) processor = ⟨0, 0⟩ ∧
    getProcessorSummary none processor = ⟨0, 0⟩ := by
  refine ⟨?_, rfl⟩
  simp [getProcessorSummary, hmiss]

/-- Witness for `summary_missing_is_zero` on the empty store. -/
theorem summary_missing_is_zero_witness :
    getProcessorSummary (some emptyStore) "default" = ⟨0, 0⟩ ∧
    getProcessorSummary none "default" = ⟨0, 0⟩ :=
  summary_missing_is_zero "default" emptyStore rfl

/-- C9 counterexample: in no-store mode the degraded mode is logged once at
startup AND once more per increment operation — a startup followed by two
increments produces three degraded-mode log lines, not exactly one. -/
theorem nostore_logging_counterexample :
    ((startupStore false emptyStore).2 ++ (updateSummaryCounters none "default" 5).2 ++
        (updateSummaryCounters none "default" 7).2).length = 3 ∧
    ¬ ((startupStore false emptyStore).2 ++ (updateSummaryCounters none "default" 5).2 ++
        (updateSummaryCounters none "default" 7).2).length = 1 := by
  constructor <;> decide

/-- C9 amended: when no counter store is reachable, increments are no-ops on
the counters and summary reads return zero; the unavailability is logged once
at startup, and in addition every increment emits its own per-operation
in-memory-fallback log line. -/
theorem nostore_degraded (processor : String) (amount : Rat) (persisted : Store) :
    updateSummaryCounters none processor amount =
      (none, [LogEvent.memoryFallback processor amount]) ∧
    getProcessorSummary none processor = ⟨0, 0⟩ ∧
    startupStore false persisted = (none, [LogEvent.redisUnavailable]) :=
  ⟨rfl, rfl, rfl⟩

/-- C1: the selector returns "default" iff the default processor's cached
snapshot (after the get/refresh) has `failing = false`, and "fallback"
otherwise; neither the fallback's health nor any `minResponseTime` enters the
decision (the right-hand sides depend on `h.failing` alone). -/
theorem selection_policy (cache : HealthCache) (probe : ProbeResult) (now : Nat)
    (h : HealthCheckCache)
    (hs : (getHealthCheck cache "default" probe now).2.1 = some h) :
    ((selectBestProcessor cache probe now).2.1 = some "default" ↔ h.failing = false) ∧
    ((selectBestProcessor cache probe now).2.1 = some "fallback" ↔ h.failing = true) := by
  simp only [selectBestProcessor]
  rw [hs]
  cases hf : h.failing <;> simp [hf]

/-- Witness for `selection_policy`: a fresh healthy default entry selects
"default". -/
theorem selection_policy_witness :
    ((selectBestProcessor initHealthCache (ProbeResult.response 429 none) 0).2.1 =
        some "default" ↔ (false : Bool) = false) ∧
    ((selectBestProcessor initHealthCache (ProbeResult.response 429 none) 0).2.1 =
        some "fallback" ↔ (false : Bool) = true) :=
  selection_policy initHealthCache (ProbeResult.response 429 none) 0 ⟨false, 100, 0⟩ rfl

/-- C6: a probe that fails at the network level overwrites the cache entry
with the pessimistic snapshot, and a subsequent selection within the
staleness window returns "fallback" without re-probing (the `false` in the
conclusion is the probed flag). -/
theorem probe_failure_pessimistic (cache : HealthCache) (now now2 : Nat)
    (probe2 : ProbeResult) (p : String) (hwin : now2 - now ≤ stalenessWindow) :
    updateHealthCheck cache p ProbeResult.connError now p = some ⟨true, 1000, now⟩ ∧
    (selectBestProcessor (updateHealthCheck cache "default" ProbeResult.connError now)
        probe2 now2).2 = (some "fallback", false) := by
  constructor
  · simp [updateHealthCheck, cacheSet]
  · have hc : updateHealthCheck cache "default" ProbeResult.connError now "default" =
        some ⟨true, 1000, now⟩ := by simp [updateHealthCheck, cacheSet]
    have hst : isStale (some (⟨true, 1000, now⟩ : HealthCheckCache)) now2 = false := by
      simp [isStale]; omega
    simp [selectBestProcessor, getHealthCheck, hc, hst]

/-- Witness for `probe_failure_pessimistic` with a 3-nanosecond-later
selection. -/
theorem probe_failure_pessimistic_witness :
    updateHealthCheck initHealthCache "default" ProbeResult.connError 0 "default" =
      some ⟨true, 1000, 0⟩ ∧
    (selectBestProcessor (updateHealthCheck initHealthCache "default" ProbeResult.connError 0)
        (ProbeResult.response 429 none) 3).2 = (some "fallback", false) :=
  probe_failure_pessimistic initHealthCache 0 3 (ProbeResult.response 429 none) "default"
    (by decide)

/-- C2: if the first delivery attempt sequence targets "default" and fails,
exactly one further sequence is made, against "fallback"; if the first
sequence targets anything else (in particular "fallback") and fails, no
further sequence is made. -/
theorem failover_exclusive (req : PaymentRequest) (processor : String)
    (sendResult : String → Bool) (store : Option Store)
    (hfail : sendResult processor = false) :
    (processor = "default" →
      (processPaymentFrom req processor sendResult store).sends = ["default", "fallback"]) ∧
    (processor ≠ "default" →
      (processPaymentFrom req processor sendResult store).sends = [processor]) := by
  constructor
  · intro hp
    subst hp
    simp only [processPaymentFrom, hfail]
    by_cases h2 : sendResult "fallback" <;> simp [h2]
  · intro hp
    have hb : (processor == "default") = false := by simp [hp]
    simp [processPaymentFrom, hfail, hb]

/-- Witness for `failover_exclusive`: every send fails, selected "default". -/
theorem failover_exclusive_witness :
    (processPaymentFrom ⟨"c1", 10⟩ "default" (fun _ => false) none).sends =
      ["default", "fallback"] :=
  (failover_exclusive ⟨"c1", 10⟩ "default" (fun _ => false) none rfl).1 rfl

/-- C3: when some delivery attempt sequence succeeds, the counter record
operation is invoked exactly once, with the processor whose delivery actually
succeeded, and (with a store available) that processor's totals grow by
exactly 1 and by exactly the payment's amount while every other processor's
summary is untouched; when no delivery succeeds, no record is made and the
store is unchanged. -/
theorem counters_on_success (req : PaymentRequest) (processor : String)
    (sendResult : String → Bool) (st : Store) :
    (∀ p, deliveredTo processor sendResult = some p →
      (processPaymentFrom req processor sendResult (some st)).records = [(p, req.amount)] ∧
      getProcessorSummary
          (processPaymentFrom req processor sendResult (some st)).finalStore p =
        ⟨(getProcessorSummary (some st) p).totalRequests + 1,
         (getProcessorSummary (some st) p).totalAmount + req.amount⟩ ∧
      (∀ q, q ≠ p →
        getProcessorSummary
            (processPaymentFrom req processor sendResult (some st)).finalStore q =
          getProcessorSummary (some st) q)) ∧
    (deliveredTo processor sendResult = none →
      (processPaymentFrom req processor sendResult (some st)).records = [] ∧
      (processPaymentFrom req processor sendResult (some st)).finalStore = some st) := by
  cases h1 : sendResult processor with
  | true =>
    have hstf : (processPaymentFrom req processor sendResult (some st)).finalStore =
        (updateSummaryCounters (some st) processor req.amount).1 := by
      simp [processPaymentFrom, h1]
    constructor
    · intro p hp
      have hp2 : processor = p := by simpa [deliveredTo, h1] using hp
      subst hp2
      refine ⟨by simp [processPaymentFrom, h1], ?_, ?_⟩
      · rw [hstf]
        exact updateSummaryCounters_self st processor req.amount
      · intro q hq
        rw [hstf]
        exact updateSummaryCounters_other st processor q req.amount hq
    · intro hnone
      simp [deliveredTo, h1] at hnone
  | false =>
    by_cases hb : processor = "default"
    · subst hb
      cases h2 : sendResult "fallback" with
      | true =>
        have hstf : (processPaymentFrom req "default" sendResult (some st)).finalStore =
            (updateSummaryCounters (some st) "fallback" req.amount).1 := by
          simp [processPaymentFrom, h1, h2]
        constructor
        · intro p hp
          have hp2 : "fallback" = p := by simpa [deliveredTo, h1, h2] using hp
          subst hp2
          refine ⟨by simp [processPaymentFrom, h1, h2], ?_, ?_⟩
          · rw [hstf]
            exact updateSummaryCounters_self st "fallback" req.amount
          · intro q hq
            rw [hstf]
            exact updateSummaryCounters_other st "fallback" q req.amount hq
        · intro hnone
          simp [deliveredTo, h1, h2] at hnone
      | false =>
        constructor
        · intro p hp
          simp [deliveredTo, h1, h2] at hp
        · intro _
          constructor <;> simp [processPaymentFrom, h1, h2]
    · have hbeq : (processor == "default") = false := by simp [hb]
      constructor
      · intro p hp
        simp [deliveredTo, h1, hbeq] at hp
      · intro _
        constructor <;> simp [processPaymentFrom, h1, hbeq]

/-- Witness for `counters_on_success`: a first-attempt success on "default"
over the empty store. -/
theorem counters_on_success_witness :
    (processPaymentFrom ⟨"c2", 10⟩ "default" (fun _ => true) (some emptyStore)).records =
      [("default", 10)] ∧
    getProcessorSummary
        (processPaymentFrom ⟨"c2", 10⟩ "default" (fun _ => true) (some emptyStore)).finalStore
        "default" =
      ⟨(getProcessorSummary (some emptyStore) "default").totalRequests + 1,
       (getProcessorSummary (some emptyStore) "default").totalAmount + 10⟩ := by
  have h := (counters_on_success ⟨"c2", 10⟩ "default" (fun _ => true) emptyStore).1 "default" rfl
  exact ⟨h.1, h.2.1⟩

theorem sendAux_step_succ (outcomes : Nat → AttemptOutcome) (attempt fuel : Nat)
    (hsucc : attemptSucceeds (outcomes attempt) = true) :
    sendAux outcomes attempt (fuel + 1) = (true, 1) := by
  cases h : outcomes attempt with
  | transportError => simp [attemptSucceeds, h] at hsucc
  | httpStatus c =>
    have h2 : is2xx c = true := by simpa [attemptSucceeds, h] using hsucc
    simp [sendAux, h, h2]

theorem sendAux_step_fail (outcomes : Nat → AttemptOutcome) (attempt fuel : Nat)
    (hfail : attemptSucceeds (outcomes attempt) = false) :
    sendAux outcomes attempt (fuel + 1) =
      ((sendAux outcomes (attempt + 1) fuel).1, (sendAux outcomes (attempt + 1) fuel).2 + 1) := by
  cases h : outcomes attempt with
  | transportError =>
    cases fuel with
    | zero => simp [sendAux, h]
    | succ f => simp [sendAux, h]
  | httpStatus c =>
    have h2 : is2xx c = false := by simpa [attemptSucceeds, h] using hfail
    simp [sendAux, h, h2]

theorem sendAux_spec (outcomes : Nat → AttemptOutcome) :
    ∀ (fuel attempt : Nat),
      (sendAux outcomes attempt fuel).2 ≤ fuel ∧
      ((sendAux outcomes attempt fuel).1 = true →
        attemptSucceeds (outcomes (attempt + (sendAux outcomes attempt fuel).2 - 1)) = true ∧
        ∀ i, attempt ≤ i → i + 1 < attempt + (sendAux outcomes attempt fuel).2 →
          attemptSucceeds (outcomes i) = false) ∧
      ((sendAux outcomes attempt fuel).1 = false →
        (sendAux outcomes attempt fuel).2 = fuel ∧
        ∀ i, attempt ≤ i → i < attempt + fuel → attemptSucceeds (outcomes i) = false) := by
  intro fuel
  induction fuel with
  | zero =>
    intro attempt
    refine ⟨by simp [sendAux], by simp [sendAux], ?_⟩
    intro _
    refine ⟨rfl, ?_⟩
    intro i h1 h2
    omega
  | succ f ih =>
    intro attempt
    cases hs : attemptSucceeds (outcomes attempt) with
    | true =>
      rw [sendAux_step_succ outcomes attempt f hs]
      refine ⟨by omega, ?_, by simp⟩
      intro _
      refine ⟨by simpa using hs, ?_⟩
      intro i h1 h2
      omega
    | false =>
      rw [sendAux_step_fail outcomes attempt f hs]
      obtain ⟨ih1, ih2, ih3⟩ := ih (attempt + 1)
      refine ⟨by simpa using Nat.succ_le_succ ih1, ?_, ?_⟩
      · intro ht
        obtain ⟨ha, hb⟩ := ih2 ht
        have hidx : attempt + ((sendAux outcomes (attempt + 1) f).2 + 1) - 1 =
            attempt + 1 + (sendAux outcomes (attempt + 1) f).2 - 1 := by omega
        refine ⟨by rw [hidx]; exact ha, ?_⟩
        intro i h1 h2
        rcases Nat.eq_or_lt_of_le h1 with he | hl
        · rw [← he]; exact hs
        · exact hb i hl (by omega)
      · intro hfal
        obtain ⟨ha, hb⟩ := ih3 hfal
        refine ⟨by omega, ?_⟩
        intro i h1 h2
        rcases Nat.eq_or_lt_of_le h1 with he | hl
        · rw [← he]; exact hs
        · exact hb i hl (by omega)

/-- C4: the delivery sender makes at most 3 HTTP attempts; it returns true
exactly when its last attempt is the first one with a 2xx status (so it
short-circuits remaining retries), and it returns false only after all 3
attempts have been made with none succeeding. -/
theorem send_retry_bound (outcomes : Nat → AttemptOutcome) :
    (sendToProcessor outcomes).2 ≤ maxRetries ∧
    ((sendToProcessor outcomes).1 = true →
      attemptSucceeds (outcomes ((sendToProcessor outcomes).2 - 1)) = true ∧
      ∀ i, i + 1 < (sendToProcessor outcomes).2 → attemptSucceeds (outcomes i) = false) ∧
    ((sendToProcessor outcomes).1 = false →
      (sendToProcessor outcomes).2 = maxRetries ∧
      ∀ i, i < maxRetries → attemptSucceeds (outcomes i) = false) := by
  simp only [sendToProcessor]
  obtain ⟨h1, h2, h3⟩ := sendAux_spec outcomes maxRetries 0
  refine ⟨h1, ?_, ?_⟩
  · intro ht
    obtain ⟨ha, hb⟩ := h2 ht
    refine ⟨by simpa using ha, ?_⟩
    intro i hi
    exact hb i (Nat.zero_le i) (by omega)
  · intro hf
    obtain ⟨ha, hb⟩ := h3 hf
    exact ⟨ha, fun i hi => hb i (Nat.zero_le i) (by omega)⟩

/-- Witness for `send_retry_bound`: an immediate 200 response. -/
theorem send_retry_bound_witness :
    (sendToProcessor (fun _ => AttemptOutcome.httpStatus 200)).2 ≤ maxRetries ∧
    attemptSucceeds ((fun _ => AttemptOutcome.httpStatus 200)
        ((sendToProcessor (fun _ => AttemptOutcome.httpStatus 200)).2 - 1)) = true := by
  have h := send_retry_bound (fun _ => AttemptOutcome.httpStatus 200)
  exact ⟨h.1, (h.2.1 (by decide)).1⟩

theorem updateHealthCheck_writes_lastCheckedAt (cache : HealthCache) (processor : String)
    (probe : ProbeResult) (now : Nat) (hw : probeWrites probe = true) :
    Option.map HealthCheckCache.lastCheckedAt
      (updateHealthCheck cache processor probe now processor) = some now := by
  cases probe with
  | connError => simp [updateHealthCheck, cacheSet]
  | response c body =>
    simp only [probeWrites, Bool.and_eq_true, bne_iff_ne, ne_eq] at hw
    obtain ⟨hc, hb⟩ := hw
    cases body with
    | none => simp at hb
    | some hr => simp [updateHealthCheck, hc, cacheSet]

/-- C5 counterexample: with the default processor's entry 6 seconds old and
a rate-limited (429) probe response, `getHealthCheck` does attempt the
refresh (probed flag true) yet returns the untouched entry, which is still
older than the staleness window at the moment of return — contradicting
"the returned value's age is then at most 5 seconds regardless of the
probe's outcome". -/
theorem staleness_counterexample :
    (getHealthCheck initHealthCache "default"
        (ProbeResult.response 429 none) 6000000000).2.2 = true ∧
    isStale (getHealthCheck initHealthCache "default"
        (ProbeResult.response 429 none) 6000000000).2.1 6000000000 = true := by
  constructor <;> rfl

/-- C5 amended: if the cached entry is missing or older than 5 seconds, a
synchronous probe refresh is attempted before the value is returned; when
the probe outcome writes the cache (connection failure, or a decodable
non-429 response) the returned snapshot carries the current timestamp, so
its age is at most 5 seconds; but on a rate-limited (429) or undecodable
response the prior entry (possibly still stale, or missing) is returned
unchanged.  A fresh entry is returned as is, without probing. -/
theorem staleness_amended (cache : HealthCache) (processor : String)
    (probe : ProbeResult) (now : Nat) :
    (isStale (cache processor) now = true →
      (getHealthCheck cache processor probe now).2.2 = true ∧
      (∀ h, probeWrites probe = true →
        (getHealthCheck cache processor probe now).2.1 = some h →
        now - h.lastCheckedAt ≤ stalenessWindow) ∧
      (probeWrites probe = true →
        ((getHealthCheck cache processor probe now).2.1).isSome = true) ∧
      (probeWrites probe = false →
        (getHealthCheck cache processor probe now).2.1 = cache processor)) ∧
    (isStale (cache processor) now = false →
      getHealthCheck cache processor probe now = (cache, cache processor, false)) := by
  constructor
  · intro hst
    have hget : getHealthCheck cache processor probe now =
        (updateHealthCheck cache processor probe now,
         updateHealthCheck cache processor probe now processor, true) := by
      simp [getHealthCheck, hst]
    rw [hget]
    refine ⟨rfl, ?_, ?_, ?_⟩
    · intro h hw hsome
      have hl := updateHealthCheck_writes_lastCheckedAt cache processor probe now hw
      have hsome2 : updateHealthCheck cache processor probe now processor = some h := hsome
      rw [hsome2] at hl
      simp at hl
      omega
    · intro hw
      have hl := updateHealthCheck_writes_lastCheckedAt cache processor probe now hw
      cases hopt : updateHealthCheck cache processor probe now processor with
      | none => rw [hopt] at hl; simp at hl
      | some _ => simp
    · intro hw
      cases probe with
      | connError => simp [probeWrites] at hw
      | response c body =>
        by_cases hc : c = 429
        · subst hc
          simp [updateHealthCheck]
        · cases body with
          | none => simp [updateHealthCheck, hc]
          | some hr => simp [probeWrites, hc] at hw
  · intro hst
    simp [getHealthCheck, hst]

/-- Witness for `staleness_amended`: a stale entry refreshed by a failing
connection probe is returned with the probe's timestamp. -/
theorem staleness_amended_witness :
    (getHealthCheck initHealthCache "default" ProbeResult.connError 6000000000).2.2 = true ∧
    ((getHealthCheck initHealthCache "default" ProbeResult.connError 6000000000).2.1).isSome =
      true := by
  have h := (staleness_amended initHealthCache "default" ProbeResult.connError 6000000000).1
    (by decide)
  exact ⟨h.1, h.2.2.1 (by decide)⟩

end Rinha
